import Mathlib

/-!
# Verification of the AegisAI frontend pipeline orchestrator

Shallow embedding of the React frontend's pipeline orchestration
(`src/frontend/src/components/OutputFilter.jsx`, the `App` component) and of
the presentational classifiers (`RiskMeter`, `LogsTable`, `ContextAnalysis`,
`FinalOutput`).

Modelling conventions:
* React `useState` fields become the record `AppState`.  The rehydration map
  is *not* part of the state: in the source it is a local of `handleSanitize`.
* The backend is an oracle `Backend μ ε` giving, for each of the five
  endpoints, either `none` (the request fails / times out) or the response
  record.  Response fields that may be absent in the JSON are `Option`s,
  mirroring every `?.field ?? default` in the source.
* The rehydration-map type `μ` and the entity type `ε` are parameters: the
  orchestrator is polymorphic in them, which captures structurally that it
  never inspects or mutates those values.
* Raw risk-score values are modelled as the string JavaScript's
  `parseInt(x, 10)` receives (JS stringifies its argument); `jsParseInt`
  models `parseInt` base 10, `jsRound` models `Math.round` over `ℚ`.
* `handleSanitize` also returns a `RunTrace` recording exactly which HTTP
  requests were issued and with which payloads.
-/

/-- One row of the capped logs list: `{ text: out, score }` (line 95). -/
structure LogEntry where
  text : String
  score : Int
deriving DecidableEq, Repr

/-- The `context` object built at line 104: `{ category: cat, confidence: conf }`. -/
structure CtxValue where
  category : Option String
  confidence : Option Int
deriving DecidableEq, Repr

/-- The React state of the `App` component (lines 45-61 of the source). -/
structure AppState where
  text : String
  sanitized : String
  risk : Int
  lastRisk : Int
  logs : List LogEntry
  loading : Bool
  ctxCategory : Option String
  ctxConfidence : Option Int
  llmText : String
  filteredOriginal : String
  filteredSafe : String
  finalText : String
  finalRisk : Option Int
deriving DecidableEq, Repr

/-- Response of `POST /api/sanitize`; every field may be absent. -/
structure SanitizeResp (μ ε : Type) where
  sanitized : Option String
  risk : Option String
  risk_score : Option String
  rehydration_map : Option μ
  entities : Option (List ε)
deriving DecidableEq, Repr

/-- Response of `POST /api/context`. -/
structure CtxResp where
  category : Option String
  confidence : Option ℚ
deriving DecidableEq, Repr

/-- Response of `POST /api/llm`. -/
structure LlmResp (μ : Type) where
  answer : Option String
  output : Option String
  confidence : Option ℚ
  explanations : Option String
  fallback_used : Option Bool
  raw : Option String
  rehydration_map : Option μ
deriving DecidableEq, Repr

/-- Response of `POST /api/output-filter`. -/
structure FilterResp (μ : Type) where
  safe_sanitized_text : Option String
  leak_detected : Option Bool
  notes : Option String
  rehydration_map : Option μ
deriving DecidableEq, Repr

/-- Response of `POST /api/final`. -/
structure FinalResp where
  final_rehydrated_text : Option String
  result : Option String
  risk : Option String
  risk_score : Option String
deriving DecidableEq, Repr

/-- The backend oracle: for each endpoint, `none` models a request failure
(network error or timeout), `some r` a response `r`. -/
structure Backend (μ ε : Type) where
  sanitize : Option (SanitizeResp μ ε)
  context : Option CtxResp
  llm : Option (LlmResp μ)
  output_filter : Option (FilterResp μ)
  final : Option FinalResp
deriving DecidableEq, Repr

/-- The client-side `llmResult` record built at lines 112-118. -/
structure LlmResult where
  answer : String
  confidence : ℚ
  explanations : String
  fallback_used : Bool
  raw : String
deriving DecidableEq, Repr

/-- Payload of the `POST /api/sanitize` request (line 85). -/
structure SanitizeReq where
  input : String
deriving DecidableEq, Repr

/-- Payload of the `POST /api/context` request (line 98). -/
structure CtxReq where
  input : String
  sanitized : String
deriving DecidableEq, Repr

/-- Payload of the `POST /api/llm` request (lines 107-111). -/
structure LlmReq (μ : Type) where
  sanitized : String
  context : CtxValue
  rehydration_map : μ
deriving DecidableEq, Repr

/-- Payload of the `POST /api/output-filter` request (lines 123-128). -/
structure FilterReq (μ : Type) where
  answer : String
  sanitized : String
  context : CtxValue
  rehydration_map : μ
deriving DecidableEq, Repr

/-- The `filtered_output` sub-record of the final request (lines 138-142). -/
structure FilteredOutput where
  safe_sanitized_text : String
  leak_detected : Bool
  notes : Option String
deriving DecidableEq, Repr

/-- Payload of the `POST /api/final` request (lines 134-146). -/
structure FinalReq (μ ε : Type) where
  input : String
  sanitized : String
  llm_result : LlmResult
  filtered_output : FilteredOutput
  entities : List ε
  context : CtxValue
  rehydration_map : μ
deriving DecidableEq, Repr

/-- Which HTTP requests a call of the orchestrator issued, with their payloads. -/
structure RunTrace (μ ε : Type) where
  sanitizeReq : Option SanitizeReq
  ctxReq : Option CtxReq
  llmReq : Option (LlmReq μ)
  filterReq : Option (FilterReq μ)
  finalReq : Option (FinalReq μ ε)
deriving DecidableEq, Repr

/-- The trace of a call that issued no request at all. -/
def RunTrace.empty {μ ε : Type} : RunTrace μ ε :=
  ⟨none, none, none, none, none⟩

/-- JavaScript falsiness of `s.trim()` (lines 80, 217):
`!s.trim()` holds iff the trimmed string is empty, i.e. iff every character
of `s` is whitespace. -/
def jsBlank (s : String) : Bool := s.data.all Char.isWhitespace

/-- JavaScript `parseInt(s, 10)`: skip leading whitespace, optional sign,
then the longest prefix of decimal digits; no digit means `NaN` (`none`). -/
def jsParseInt (s : String) : Option Int :=
  let cs := s.data.dropWhile Char.isWhitespace
  let signAndRest : Int × List Char :=
    match cs with
    | '-' :: rest => (-1, rest)
    | '+' :: rest => (1, rest)
    | _ => (1, cs)
  let ds := signAndRest.2.takeWhile Char.isDigit
  if ds.isEmpty then none
  else some (signAndRest.1 * (ds.foldl (fun acc c => acc * 10 + (c.toNat - 48)) 0 : Nat))

/-- `Math.max(0, Math.min(100, n))` (lines 89 and 154). -/
def clamp100 (n : Int) : Int := max 0 (min 100 n)

/-- Lines 88-89 / 153-154: `parseInt(raw, 10)` then
`Math.max(0, Math.min(100, Number.isNaN(n) ? 0 : n))`. -/
def parseRisk (raw : String) : Int :=
  clamp100 ((jsParseInt raw).getD 0)

/-- `Math.round` over rationals: round half toward positive infinity. -/
def jsRound (q : ℚ) : Int := ⌊q + 1 / 2⌋

/-- Line 101: `confRaw == null ? null : (confRaw <= 1 ? Math.round(confRaw * 100)
: Math.round(confRaw))`. -/
def normConfidence : Option ℚ → Option Int
  | none => none
  | some q => some (if q ≤ 1 then jsRound (q * 100) else jsRound q)

/-- Line 35 of `ContextAnalysis.jsx`:
`confidence != null ? confidence + percent sign : em dash`. -/
def displayConfidence : Option Int → String
  | some n => toString n ++ "%"
  | none => "—"

/-- Line 95: `[{ text: out, score }, ...prev.slice(0, 19)]`. -/
def addLog (e : LogEntry) (prev : List LogEntry) : List LogEntry :=
  e :: prev.take 19

/-- `clearPipeline` (lines 64-73): clears the downstream display slots and
preserves `risk`, `lastRisk`, `finalRisk`, `logs`, `text`, `loading`. -/
def clearPipeline (st : AppState) : AppState :=
  { st with
    sanitized := ""
    ctxCategory := none
    ctxConfidence := none
    llmText := ""
    filteredOriginal := ""
    filteredSafe := ""
    finalText := "" }

/-- `handleSanitize` (lines 79-161): the five-stage sequential request chain.
Returns the state after the run together with the trace of issued requests.
A `none` from the oracle at any stage models that stage's request failing:
the chain aborts there and (through the `finally` block) only `loading` is
reset. -/
def handleSanitize {μ ε : Type} (emptyMap : μ) (st : AppState) (bk : Backend μ ε) :
    AppState × RunTrace μ ε :=
  if jsBlank st.text then (st, RunTrace.empty)
  else
    let st1 := clearPipeline { st with loading := true }
    let tr1 : RunTrace μ ε := { RunTrace.empty with sanitizeReq := some ⟨st.text⟩ }
    match bk.sanitize with
    | none => ({ st1 with loading := false }, tr1)
    | some s =>
      let out := s.sanitized.getD ""
      let score := parseRisk ((s.risk <|> s.risk_score).getD "0")
      let rehydrationMap := s.rehydration_map.getD emptyMap
      let entities := s.entities.getD []
      let st2 := { st1 with
        sanitized := out
        risk := score
        lastRisk := score
        logs := addLog ⟨out, score⟩ st1.logs }
      let tr2 := { tr1 with ctxReq := some ⟨st.text, out⟩ }
      match bk.context with
      | none => ({ st2 with loading := false }, tr2)
      | some c =>
        let cat := c.category
        let conf := normConfidence c.confidence
        let st3 := { st2 with ctxCategory := cat, ctxConfidence := conf }
        let context : CtxValue := ⟨cat, conf⟩
        let llmRequest : LlmReq μ := ⟨out, context, rehydrationMap⟩
        let tr3 := { tr2 with llmReq := some llmRequest }
        match bk.llm with
        | none => ({ st3 with loading := false }, tr3)
        | some l =>
          let llmResult : LlmResult :=
            { answer := (l.answer <|> l.output).getD ""
              confidence := l.confidence.getD 0
              explanations := l.explanations.getD ""
              fallback_used := l.fallback_used.getD false
              raw := l.raw.getD "" }
          let llmRehydrationMap := l.rehydration_map.getD rehydrationMap
          let st4 := { st3 with llmText := llmResult.answer }
          let filterRequest : FilterReq μ :=
            ⟨llmResult.answer, out, context, llmRehydrationMap⟩
          let tr4 := { tr3 with filterReq := some filterRequest }
          match bk.output_filter with
          | none => ({ st4 with loading := false }, tr4)
          | some f =>
            let st5 := { st4 with
              filteredOriginal := llmResult.answer
              filteredSafe := f.safe_sanitized_text.getD llmResult.answer }
            let filterRehydrationMap := f.rehydration_map.getD llmRehydrationMap
            let finalRequest : FinalReq μ ε :=
              { input := st.text
                sanitized := out
                llm_result := llmResult
                filtered_output :=
                  ⟨f.safe_sanitized_text.getD llmResult.answer,
                    f.leak_detected.getD false, f.notes⟩
                entities := entities
                context := context
                rehydration_map := filterRehydrationMap }
            let tr5 := { tr4 with finalReq := some finalRequest }
            match bk.final with
            | none => ({ st5 with loading := false }, tr5)
            | some fin =>
              let finalTextValue :=
                ((fin.final_rehydrated_text <|> fin.result) <|>
                  f.safe_sanitized_text).getD llmResult.answer
              let finalR := parseRisk ((fin.risk <|> fin.risk_score).getD "0")
              ({ st5 with
                  finalText := finalTextValue
                  finalRisk := some finalR
                  loading := false }, tr5)

/-- The user-visible trigger: the Sanitize button (lines 215-222) carries
`disabled = loading or not text.trim()`, and a disabled button fires no
`onClick`, so `handleSanitize` runs only when enabled. -/
def triggerSanitize {μ ε : Type} (emptyMap : μ) (st : AppState) (bk : Backend μ ε) :
    AppState × RunTrace μ ε :=
  if st.loading || jsBlank st.text then (st, RunTrace.empty)
  else handleSanitize emptyMap st bk

/-- Line 277: the Final Output panel receives `risk = finalRisk ?? lastRisk`. -/
def displayedFinalRisk (st : AppState) : Int :=
  st.finalRisk.getD st.lastRisk

/-- `RiskMeter` (in `Mascot.jsx` blob, lines 37-38): clamp, then
`clamped < 40 ? green : clamped < 70 ? yellow : red`. -/
def riskMeterColor (value : Int) : String :=
  let clamped := clamp100 value
  if clamped < 40 then "#22c55e" else if clamped < 70 then "#facc15" else "#ef4444"

/-- `RiskMeter` line 66: the textual band label. -/
def riskMeterLabel (value : Int) : String :=
  let clamped := clamp100 value
  if clamped < 40 then "Low" else if clamped < 70 then "Moderate" else "High"

/-- `LogsTable.jsx` lines 38-44: badge class from `row.score`. -/
def logsBadgeClass (score : Int) : String :=
  if score < 40 then "bg-green-500/10 text-green-400 shadow-green-500/20"
  else if score < 70 then "bg-yellow-500/10 text-yellow-300 shadow-yellow-500/20"
  else "bg-red-500/10 text-red-400 shadow-red-500/20"

/-- `FinalOutput` (`src/unnamed/part_000` lines 33-39): badge class from
`(risk ?? 0)`. -/
def finalOutputBadgeClass (risk : Option Int) : String :=
  if risk.getD 0 < 40 then "bg-green-500/10 text-green-400"
  else if risk.getD 0 < 70 then "bg-yellow-500/10 text-yellow-400"
  else "bg-red-500/10 text-red-400"

/-! ## Concrete fixtures used by witnesses and counterexamples -/

/-- The initial React state (lines 45-61: all strings empty, risks 0,
`finalRisk` and context fields null, `logs` empty, not loading). -/
def initState : AppState :=
  ⟨"", "", 0, 0, [], false, none, none, "", "", "", "", none⟩

/-- A state with a non-blank prompt, ready to run the pipeline. -/
def stW : AppState :=
  { initState with text := "hi" }

/-- A logs list already holding 20 entries. -/
def fullLogs : List LogEntry := List.replicate 20 ⟨"t", 1⟩

/-- A backend where every request fails. -/
def bkNoneUnit : Backend Unit Unit := ⟨none, none, none, none, none⟩

/-- A fully successful backend: sanitize returns risk `"62"` and map `"M1"`,
the LLM response omits its rehydration map, the filter returns map `"M3"`,
and the final response carries text but no risk field. -/
def bkW : Backend String Unit :=
  { sanitize := some ⟨some "S", some "62", none, some "M1", none⟩
    context := some ⟨none, none⟩
    llm := some ⟨some "A", none, none, none, none, none, none⟩
    output_filter := some ⟨some "F", none, none, some "M3"⟩
    final := some ⟨some "FR", none, none, none⟩ }

/-- The final-stage request payload produced by running `bkW` from `stW`. -/
def finalReqW : FinalReq String Unit :=
  ⟨"hi", "S", ⟨"A", 0, "", false, ""⟩, ⟨"F", false, none⟩, [], ⟨none, none⟩, "M3"⟩

/-- A backend whose context stage fails right after a successful sanitize. -/
def bkCtxFail : Backend Unit Unit :=
  ⟨some ⟨some "S", some "62", none, none, none⟩, none, none, none, none⟩

/-- A backend whose LLM stage fails after sanitize and context succeed. -/
def bkLlmFail : Backend Unit Unit :=
  ⟨some ⟨some "S", some "62", none, none, none⟩, some ⟨none, none⟩, none, none, none⟩

/-- A fully successful backend whose final response has neither
`final_rehydrated_text` nor `result` (and no risk field either). -/
def bkFinalPlain : Backend String Unit :=
  { sanitize := some ⟨some "S", some "62", none, some "M1", none⟩
    context := some ⟨none, none⟩
    llm := some ⟨some "A", none, none, none, none, none, none⟩
    output_filter := some ⟨some "F", none, none, some "M3"⟩
    final := some ⟨none, none, none, none⟩ }

/-! ## C1: final-panel risk when the final response has no risk field

The claim says the Final Output panel then shows the sanitization-stage
score.  It does not: lines 152-154 default the missing raw score to `0`
before parsing, so `setFinalRisk(0)` runs and `finalRisk ?? lastRisk`
(line 277) yields `0`, not the sanitize score.  The `?? lastRisk` fallback
fires only while `finalRisk` is still `null`, i.e. before any final stage
has completed. -/

/-- C1 counterexample: a successful run whose final response has no `risk`
and no `risk_score` field displays final-panel risk `0`, while the
sanitization-stage score is `62`. -/
theorem final_risk_default_counterexample :
    bkW.final = some ⟨some "FR", none, none, none⟩ ∧
    (handleSanitize "E" stW bkW).1.finalText = "FR" ∧
    (handleSanitize "E" stW bkW).1.lastRisk = 62 ∧
    (handleSanitize "E" stW bkW).1.finalRisk = some 0 ∧
    displayedFinalRisk (handleSanitize "E" stW bkW).1 = 0 ∧
    displayedFinalRisk (handleSanitize "E" stW bkW).1 ≠
      (handleSanitize "E" stW bkW).1.lastRisk :=
  ⟨rfl, by decide, by decide, by decide, by decide, by decide⟩

/-- C1 (amended): if the final stage's response contains neither a `risk`
nor a `risk_score` field and the run reached the final stage, the stored
final risk is `0` and the Final Output panel displays `0`; the
sanitize-score fallback of `finalRisk ?? lastRisk` applies exactly when no
final risk has ever been stored (`finalRisk` still null). -/
theorem final_risk_default_amended {μ ε : Type} (emptyMap : μ) (st : AppState)
    (bk : Backend μ ε) (fin : FinalResp) (hfin : bk.final = some fin)
    (h1 : fin.risk = none) (h2 : fin.risk_score = none)
    (hreq : (handleSanitize emptyMap st bk).2.finalReq ≠ none) :
    (handleSanitize emptyMap st bk).1.finalRisk = some 0 ∧
    displayedFinalRisk (handleSanitize emptyMap st bk).1 = 0 ∧
    (∀ st' : AppState, st'.finalRisk = none →
      displayedFinalRisk st' = st'.lastRisk) := by
  have hp : parseRisk "0" = 0 := by decide
  obtain ⟨s?, c?, l?, f?, fin?⟩ := bk
  simp only at hfin
  subst hfin
  unfold handleSanitize at *
  rcases hb : jsBlank st.text with _ | _ <;>
    rcases s? with _ | s <;>
    rcases c? with _ | c <;>
    rcases l? with _ | l <;>
    rcases f? with _ | f <;>
    simp_all [RunTrace.empty, displayedFinalRisk, h1, h2, hp]

/-- C1 amended witness: the concrete run of `bkW` from `stW`. -/
theorem final_risk_default_amended_witness :
    (handleSanitize "E" stW bkW).1.finalRisk = some 0 ∧
    displayedFinalRisk (handleSanitize "E" stW bkW).1 = 0 :=
  ⟨(final_risk_default_amended "E" stW bkW _ rfl rfl rfl (by decide)).1,
    (final_risk_default_amended "E" stW bkW _ rfl rfl rfl (by decide)).2.1⟩

/-! ## C2: triggering a run while one is in progress is a no-op

The in-progress guard lives in the trigger path: the Sanitize button is
rendered with `disabled = loading or not text.trim()` (lines 215-222), and a
disabled button fires no `onClick`, so `handleSanitize` is never entered
while `loading` is true.  `triggerSanitize` embeds exactly that gate. -/

/-- C2: invoking the pipeline-run trigger while `loading` is true issues no
HTTP request (every slot of the returned trace is `none`) and leaves the
state unchanged. -/
theorem run_in_progress_noop {μ ε : Type} (emptyMap : μ) (st : AppState)
    (bk : Backend μ ε) (h : st.loading = true) :
    triggerSanitize emptyMap st bk = (st, RunTrace.empty) ∧
    (triggerSanitize emptyMap st bk).2.sanitizeReq = none ∧
    (triggerSanitize emptyMap st bk).2.ctxReq = none ∧
    (triggerSanitize emptyMap st bk).2.llmReq = none ∧
    (triggerSanitize emptyMap st bk).2.filterReq = none ∧
    (triggerSanitize emptyMap st bk).2.finalReq = none := by
  unfold triggerSanitize
  simp [h, RunTrace.empty]

/-- C2 witness: a loading state with a non-blank prompt and a live backend
still yields the unchanged state and the empty trace. -/
theorem run_in_progress_noop_witness :
    triggerSanitize () { stW with loading := true } bkNoneUnit =
      ({ stW with loading := true }, RunTrace.empty) :=
  (run_in_progress_noop () { stW with loading := true } bkNoneUnit rfl).1

/-! ## C3: rehydration-map pass-through

The orchestrator is polymorphic in the map type `μ`, so it cannot inspect
or mutate map contents; the theorem pins down exactly which map value each
of the stage-3/4/5 requests carries, including the fallback to the most
recent map when a response omits one (lines 110, 119, 127, 131, 145). -/

/-- C3: the stage-3 request carries the sanitize-stage map; the stage-4
request carries the LLM response's map, defaulting to the previous one;
the stage-5 request carries the filter response's map, defaulting to the
previous one. -/
theorem rehydration_map_forwarding {μ ε : Type} (emptyMap : μ) (st : AppState)
    (bk : Backend μ ε) (s : SanitizeResp μ ε) (hs : bk.sanitize = some s) :
    (∀ req, (handleSanitize emptyMap st bk).2.llmReq = some req →
      req.rehydration_map = s.rehydration_map.getD emptyMap) ∧
    (∀ l req, bk.llm = some l →
      (handleSanitize emptyMap st bk).2.filterReq = some req →
      req.rehydration_map =
        l.rehydration_map.getD (s.rehydration_map.getD emptyMap)) ∧
    (∀ l f req, bk.llm = some l → bk.output_filter = some f →
      (handleSanitize emptyMap st bk).2.finalReq = some req →
      req.rehydration_map =
        f.rehydration_map.getD
          (l.rehydration_map.getD (s.rehydration_map.getD emptyMap))) := by
  obtain ⟨s?, c?, l?, f?, fin?⟩ := bk
  simp only at hs
  subst hs
  unfold handleSanitize
  rcases hb : jsBlank st.text with _ | _ <;>
    rcases c? with _ | c <;>
    rcases l? with _ | l <;>
    rcases f? with _ | f <;>
    rcases fin? with _ | fin <;>
    simp [RunTrace.empty]

/-- C3 witness: with `bkW` the LLM request carries the sanitize-stage map
`"M1"`, and since the LLM response omits its map while the filter response
supplies `"M3"`, the final request carries `"M3"`. -/
theorem rehydration_map_forwarding_witness :
    (handleSanitize "E" stW bkW).2.llmReq =
      some (LlmReq.mk "S" ⟨none, none⟩ "M1") ∧
    (LlmReq.mk "S" (CtxValue.mk none none) "M1").rehydration_map = "M1" ∧
    (handleSanitize "E" stW bkW).2.finalReq = some finalReqW ∧
    finalReqW.rehydration_map = "M3" :=
  ⟨by decide,
    (rehydration_map_forwarding "E" stW bkW _ rfl).1 _ (by decide),
    by decide,
    (rehydration_map_forwarding "E" stW bkW _ rfl).2.2 _ _ _ rfl rfl (by decide)⟩

/-! ## C4: a stage failure aborts the rest of the run without rollback

Failure of any stage's request stops the chain (there is no `catch`: the
exception propagates out of the `try`), no later request is issued, state
written by completed stages stays, and the `finally` block (lines 158-160)
clears the loading flag. -/

/-- C4: for a run that passes the input guard, the loading flag is false
afterwards whatever the backend does; a failing stage suppresses all later
requests; and at every failure point — context, LLM, output-filter or
final — the state already applied by the completed stages (the sanitized
text, the fresh log entry, the context fields, the LLM answer, the filter
texts) persists while the slots of the unreached stages stay cleared. -/
theorem stage_failure_aborts {μ ε : Type} (emptyMap : μ) (st : AppState)
    (bk : Backend μ ε) (hrun : jsBlank st.text = false) :
    ((handleSanitize emptyMap st bk).1.loading = false) ∧
    (bk.sanitize = none →
      (handleSanitize emptyMap st bk).2.ctxReq = none ∧
      (handleSanitize emptyMap st bk).2.llmReq = none ∧
      (handleSanitize emptyMap st bk).2.filterReq = none ∧
      (handleSanitize emptyMap st bk).2.finalReq = none) ∧
    (bk.context = none →
      (handleSanitize emptyMap st bk).2.llmReq = none ∧
      (handleSanitize emptyMap st bk).2.filterReq = none ∧
      (handleSanitize emptyMap st bk).2.finalReq = none) ∧
    (bk.llm = none →
      (handleSanitize emptyMap st bk).2.filterReq = none ∧
      (handleSanitize emptyMap st bk).2.finalReq = none) ∧
    (bk.output_filter = none →
      (handleSanitize emptyMap st bk).2.finalReq = none) ∧
    (∀ s, bk.sanitize = some s → bk.context = none →
      (handleSanitize emptyMap st bk).1.sanitized = s.sanitized.getD "" ∧
      (handleSanitize emptyMap st bk).1.logs =
        addLog ⟨s.sanitized.getD "", parseRisk ((s.risk <|> s.risk_score).getD "0")⟩
          st.logs ∧
      (handleSanitize emptyMap st bk).1.ctxCategory = none ∧
      (handleSanitize emptyMap st bk).1.ctxConfidence = none ∧
      (handleSanitize emptyMap st bk).1.llmText = "" ∧
      (handleSanitize emptyMap st bk).1.filteredOriginal = "" ∧
      (handleSanitize emptyMap st bk).1.filteredSafe = "" ∧
      (handleSanitize emptyMap st bk).1.finalText = "") ∧
    (∀ s c, bk.sanitize = some s → bk.context = some c → bk.llm = none →
      (handleSanitize emptyMap st bk).1.sanitized = s.sanitized.getD "" ∧
      (handleSanitize emptyMap st bk).1.logs =
        addLog ⟨s.sanitized.getD "", parseRisk ((s.risk <|> s.risk_score).getD "0")⟩
          st.logs ∧
      (handleSanitize emptyMap st bk).1.ctxCategory = c.category ∧
      (handleSanitize emptyMap st bk).1.ctxConfidence = normConfidence c.confidence ∧
      (handleSanitize emptyMap st bk).1.llmText = "" ∧
      (handleSanitize emptyMap st bk).1.filteredOriginal = "" ∧
      (handleSanitize emptyMap st bk).1.filteredSafe = "" ∧
      (handleSanitize emptyMap st bk).1.finalText = "") ∧
    (∀ s c l, bk.sanitize = some s → bk.context = some c → bk.llm = some l →
      bk.output_filter = none →
      (handleSanitize emptyMap st bk).1.sanitized = s.sanitized.getD "" ∧
      (handleSanitize emptyMap st bk).1.logs =
        addLog ⟨s.sanitized.getD "", parseRisk ((s.risk <|> s.risk_score).getD "0")⟩
          st.logs ∧
      (handleSanitize emptyMap st bk).1.ctxCategory = c.category ∧
      (handleSanitize emptyMap st bk).1.ctxConfidence = normConfidence c.confidence ∧
      (handleSanitize emptyMap st bk).1.llmText = (l.answer <|> l.output).getD "" ∧
      (handleSanitize emptyMap st bk).1.filteredOriginal = "" ∧
      (handleSanitize emptyMap st bk).1.filteredSafe = "" ∧
      (handleSanitize emptyMap st bk).1.finalText = "") ∧
    (∀ s c l f, bk.sanitize = some s → bk.context = some c → bk.llm = some l →
      bk.output_filter = some f → bk.final = none →
      (handleSanitize emptyMap st bk).1.sanitized = s.sanitized.getD "" ∧
      (handleSanitize emptyMap st bk).1.logs =
        addLog ⟨s.sanitized.getD "", parseRisk ((s.risk <|> s.risk_score).getD "0")⟩
          st.logs ∧
      (handleSanitize emptyMap st bk).1.ctxCategory = c.category ∧
      (handleSanitize emptyMap st bk).1.ctxConfidence = normConfidence c.confidence ∧
      (handleSanitize emptyMap st bk).1.llmText = (l.answer <|> l.output).getD "" ∧
      (handleSanitize emptyMap st bk).1.filteredOriginal =
        (l.answer <|> l.output).getD "" ∧
      (handleSanitize emptyMap st bk).1.filteredSafe =
        f.safe_sanitized_text.getD ((l.answer <|> l.output).getD "") ∧
      (handleSanitize emptyMap st bk).1.finalText = "" ∧
      (handleSanitize emptyMap st bk).1.finalRisk = st.finalRisk) := by
  obtain ⟨s?, c?, l?, f?, fin?⟩ := bk
  unfold handleSanitize
  rcases s? with _ | s <;>
    rcases c? with _ | c <;>
    rcases l? with _ | l <;>
    rcases f? with _ | f <;>
    rcases fin? with _ | fin <;>
    simp [hrun, RunTrace.empty, clearPipeline]
  all_goals
    intro s1 c1 l1 f1 hs1 hc1 hl1 hf1
    subst hs1
    subst hc1
    subst hl1
    subst hf1
    simp

/-- C4 witness: concrete failures at the context and at the LLM stage.
The context-stage failure after a successful sanitize keeps the sanitized
text and the log entry, leaves the later slots empty, issues no LLM
request, and resolves loading to false; the LLM-stage failure likewise
keeps the sanitize-stage state. -/
theorem stage_failure_aborts_witness :
    (handleSanitize () stW bkCtxFail).1.loading = false ∧
    (handleSanitize () stW bkCtxFail).2.llmReq = none ∧
    (handleSanitize () stW bkCtxFail).1.sanitized = "S" ∧
    (handleSanitize () stW bkCtxFail).1.logs =
      addLog ⟨"S", parseRisk "62"⟩ stW.logs ∧
    (handleSanitize () stW bkCtxFail).1.llmText = "" ∧
    (handleSanitize () stW bkLlmFail).1.sanitized = "S" ∧
    (handleSanitize () stW bkLlmFail).1.logs =
      addLog ⟨"S", parseRisk "62"⟩ stW.logs ∧
    (handleSanitize () stW bkLlmFail).1.llmText = "" := by
  have h := stage_failure_aborts () stW bkCtxFail (by decide)
  have hs := h.2.2.2.2.2.1 ⟨some "S", some "62", none, none, none⟩ rfl rfl
  have h2 := stage_failure_aborts () stW bkLlmFail (by decide)
  have hl := h2.2.2.2.2.2.2.1 ⟨some "S", some "62", none, none, none⟩
    ⟨none, none⟩ rfl rfl rfl
  exact ⟨h.1, (h.2.2.1 rfl).1, hs.1, hs.2.1, hs.2.2.2.2.1,
    hl.1, hl.2.1, hl.2.2.2.2.1⟩

/-! ## C5: the logs list is capped at 20, most-recent-first -/

/-- C5: prepending via `[entry, ...prev.slice(0, 19)]` always yields at
most 20 entries with the new entry first; prepending to a full 20-entry
list drops the oldest (last) entry; every run whose sanitize stage
succeeds prepends exactly the `{text: out, score}` entry built from the
sanitize response; and the logs are unchanged when the guard refuses the
run or the sanitize request fails. -/
theorem log_cap_twenty {μ ε : Type} (e : LogEntry) (prev : List LogEntry)
    (emptyMap : μ) (st : AppState) (bk : Backend μ ε) :
    (addLog e prev).length ≤ 20 ∧
    (addLog e prev).head? = some e ∧
    (prev.length = 20 → addLog e prev = e :: prev.dropLast) ∧
    (∀ s, bk.sanitize = some s → jsBlank st.text = false →
      (handleSanitize emptyMap st bk).1.logs =
        addLog ⟨s.sanitized.getD "", parseRisk ((s.risk <|> s.risk_score).getD "0")⟩
          st.logs) ∧
    (bk.sanitize = none → (handleSanitize emptyMap st bk).1.logs = st.logs) ∧
    (jsBlank st.text = true → (handleSanitize emptyMap st bk).1.logs = st.logs) := by
  refine ⟨?_, rfl, ?_, ?_⟩
  · simp only [addLog, List.length_cons]
    have := List.length_take_le 19 prev
    omega
  · intro h
    simp only [addLog, List.dropLast_eq_take, h]
  · obtain ⟨s?, c?, l?, f?, fin?⟩ := bk
    unfold handleSanitize
    rcases hb : jsBlank st.text with _ | _ <;>
      rcases s? with _ | s <;>
      rcases c? with _ | c <;>
      rcases l? with _ | l <;>
      rcases f? with _ | f <;>
      rcases fin? with _ | fin <;>
      simp [clearPipeline]

/-- C5 witness: prepending to a concrete 20-entry list drops the oldest,
and a concrete run with a successful sanitize stage prepends exactly the
entry built from the sanitize response. -/
theorem log_cap_twenty_witness :
    fullLogs.length = 20 ∧
    addLog ⟨"s", 2⟩ fullLogs = LogEntry.mk "s" 2 :: fullLogs.dropLast ∧
    (handleSanitize () stW bkCtxFail).1.logs =
      addLog ⟨"S", parseRisk "62"⟩ stW.logs :=
  ⟨by decide,
    (log_cap_twenty ⟨"s", 2⟩ fullLogs () initState bkNoneUnit).2.2.1 (by decide),
    (log_cap_twenty ⟨"s", 2⟩ fullLogs () stW bkCtxFail).2.2.2.1
      ⟨some "S", some "62", none, none, none⟩ rfl (by decide)⟩

/-! ## C6: risk scores are parsed as integers and clamped to [0, 100] -/

/-- C6: every value run through the shared score path of the sanitize and
final stages (`parseInt` then clamp, lines 87-89 and 152-154) lands in
[0, 100], and a non-numeric value (where `parseInt` yields NaN) gives 0. -/
theorem risk_score_parse_clamped (raw : String) :
    0 ≤ parseRisk raw ∧ parseRisk raw ≤ 100 ∧
    (jsParseInt raw = none → parseRisk raw = 0) := by
  unfold parseRisk clamp100
  rcases h : jsParseInt raw with _ | n <;> simp [h]

/-- C6 witness: a non-numeric raw score yields 0, and an out-of-range one
stays within the bounds. -/
theorem risk_score_parse_clamped_witness :
    jsParseInt "oops" = none ∧ parseRisk "oops" = 0 ∧
    0 ≤ parseRisk "250" ∧ parseRisk "250" ≤ 100 :=
  ⟨by decide, (risk_score_parse_clamped "oops").2.2 (by decide),
    (risk_score_parse_clamped "250").1, (risk_score_parse_clamped "250").2.1⟩

/-! ## C7: context-confidence normalization

The claim's "integer percentage in [0,100]" part fails on the code: line
101 multiplies-and-rounds or rounds but never clamps, and the confidence
span of `ContextAnalysis.jsx` (line 35) renders the stored value as-is
(only the bar width is clamped, line 40).  Input 250 is displayed as
`250%`. -/

/-- C7 counterexample: confidence input 250 is normalized to 250 and
displayed as `250%`, outside [0, 100]. -/
theorem confidence_range_counterexample :
    normConfidence (some 250) = some 250 ∧
    displayConfidence (normConfidence (some 250)) = "250%" ∧
    ¬ ((250 : Int) ≤ 100) := by
  have h : normConfidence (some 250) = some 250 := by
    norm_num [normConfidence, jsRound, Int.floor_eq_iff]
  refine ⟨h, ?_, by decide⟩
  rw [h]
  decide

/-- C7 (amended): null stays null and is displayed as an em dash; a value
is multiplied by 100 and rounded when at most 1 and rounded otherwise; the
result lies in [0, 100] whenever the input lies in [0, 100] (but is not
clamped in general); 0.73 and 73 are both displayed as `73%`. -/
theorem confidence_normalization (q : ℚ) :
    normConfidence none = none ∧
    displayConfidence (normConfidence none) = "—" ∧
    normConfidence (some q) =
      some (if q ≤ 1 then jsRound (q * 100) else jsRound q) ∧
    (0 ≤ q → q ≤ 100 → ∀ n, normConfidence (some q) = some n →
      0 ≤ n ∧ n ≤ 100) ∧
    displayConfidence (normConfidence (some (73 / 100))) = "73%" ∧
    displayConfidence (normConfidence (some 73)) = "73%" := by
  have h73a : normConfidence (some (73 / 100)) = some 73 := by
    norm_num [normConfidence, jsRound, Int.floor_eq_iff]
  have h73b : normConfidence (some 73) = some 73 := by
    norm_num [normConfidence, jsRound, Int.floor_eq_iff]
  refine ⟨rfl, rfl, rfl, ?_, ?_, ?_⟩
  · intro hq0 hq100 n hn
    rw [show normConfidence (some q) =
      some (if q ≤ 1 then jsRound (q * 100) else jsRound q) from rfl] at hn
    split_ifs at hn with h1
    · injection hn with hn
      subst hn
      unfold jsRound
      constructor
      · exact Int.le_floor.mpr (by push_cast; nlinarith)
      · have hlt : ⌊q * 100 + 1 / 2⌋ < 101 := Int.floor_lt.mpr (by push_cast; nlinarith)
        omega
    · injection hn with hn
      subst hn
      unfold jsRound
      constructor
      · exact Int.le_floor.mpr (by push_cast; linarith)
      · have hlt : ⌊q + 1 / 2⌋ < 101 := Int.floor_lt.mpr (by push_cast; linarith)
        omega
  · rw [h73a]; decide
  · rw [h73b]; decide

/-- C7 amended witness: input 0.73 lies in [0, 100] and its normalized
value 73 lies in [0, 100]. -/
theorem confidence_normalization_witness :
    (0 : ℚ) ≤ 73 / 100 ∧ (73 : ℚ) / 100 ≤ 100 ∧
    normConfidence (some (73 / 100)) = some 73 ∧
    0 ≤ (73 : Int) ∧ (73 : Int) ≤ 100 := by
  have h73 : normConfidence (some (73 / 100)) = some 73 := by
    norm_num [normConfidence, jsRound, Int.floor_eq_iff]
  have h := (confidence_normalization (73 / 100)).2.2.2.1 (by norm_num)
    (by norm_num) 73 h73
  exact ⟨by norm_num, by norm_num, h73, h.1, h.2⟩

/-! ## C8: the risk meter always shows the sanitization-stage score

`RiskMeter` is driven by `lastRisk` (line 273).  `clearPipeline` preserves
the risk values (lines 64-73), `setLastRisk` is called only in the sanitize
stage (line 94), and the final stage deliberately never touches it (lines
156-157): the value after a run is fully determined by the sanitize
response alone, so the final-stage score can never overwrite it. -/

/-- C8: pre-run clearing preserves all risk values, and the meter value
`lastRisk` after a run equals the parsed sanitize-stage score when sanitize
succeeded and is otherwise unchanged — independent of every later stage's
response, in particular of the final-stage score. -/
theorem risk_meter_sanitize_score {μ ε : Type} (emptyMap : μ) (st : AppState)
    (bk : Backend μ ε) :
    (clearPipeline st).lastRisk = st.lastRisk ∧
    (clearPipeline st).risk = st.risk ∧
    (clearPipeline st).finalRisk = st.finalRisk ∧
    (jsBlank st.text = true →
      (handleSanitize emptyMap st bk).1.lastRisk = st.lastRisk) ∧
    (bk.sanitize = none →
      (handleSanitize emptyMap st bk).1.lastRisk = st.lastRisk) ∧
    (∀ s, bk.sanitize = some s → jsBlank st.text = false →
      (handleSanitize emptyMap st bk).1.lastRisk =
        parseRisk ((s.risk <|> s.risk_score).getD "0")) := by
  obtain ⟨s?, c?, l?, f?, fin?⟩ := bk
  unfold handleSanitize
  rcases hb : jsBlank st.text with _ | _ <;>
    rcases s? with _ | s <;>
    rcases c? with _ | c <;>
    rcases l? with _ | l <;>
    rcases f? with _ | f <;>
    rcases fin? with _ | fin <;>
    simp [clearPipeline]

/-- C8 witness: in the concrete full run the meter value is the parsed
sanitize score even though the final response carried no score at all. -/
theorem risk_meter_sanitize_score_witness :
    (handleSanitize "E" stW bkW).1.lastRisk = parseRisk "62" :=
  (risk_meter_sanitize_score "E" stW bkW).2.2.2.2.2 _ rfl (by decide)

/-! ## C9: the three risk bands -/

/-- C9: the risk meter (color and label), the logs-table badge and the
final-output badge all classify a score into the low band exactly when it
is below 40, the moderate band exactly when it is in [40, 70), and the
high band exactly when it is at least 70. -/
theorem risk_band_classification (r : Int) :
    (riskMeterColor r = "#22c55e" ↔ r < 40) ∧
    (riskMeterColor r = "#facc15" ↔ 40 ≤ r ∧ r < 70) ∧
    (riskMeterColor r = "#ef4444" ↔ 70 ≤ r) ∧
    (riskMeterLabel r = "Low" ↔ r < 40) ∧
    (riskMeterLabel r = "Moderate" ↔ 40 ≤ r ∧ r < 70) ∧
    (riskMeterLabel r = "High" ↔ 70 ≤ r) ∧
    (logsBadgeClass r = "bg-green-500/10 text-green-400 shadow-green-500/20" ↔ r < 40) ∧
    (logsBadgeClass r = "bg-yellow-500/10 text-yellow-300 shadow-yellow-500/20" ↔ 40 ≤ r ∧ r < 70) ∧
    (logsBadgeClass r = "bg-red-500/10 text-red-400 shadow-red-500/20" ↔ 70 ≤ r) ∧
    (finalOutputBadgeClass (some r) = "bg-green-500/10 text-green-400" ↔ r < 40) ∧
    (finalOutputBadgeClass (some r) = "bg-yellow-500/10 text-yellow-400" ↔ 40 ≤ r ∧ r < 70) ∧
    (finalOutputBadgeClass (some r) = "bg-red-500/10 text-red-400" ↔ 70 ≤ r) := by
  unfold riskMeterColor riskMeterLabel logsBadgeClass finalOutputBadgeClass clamp100
  simp only [Option.getD_some]
  split_ifs <;> simp_all
  all_goals omega

/-! ## C10: final text fallback chain -/

/-- C10: when the final response has neither `final_rehydrated_text` nor
`result` and the run reached the final stage, the displayed final text is
the filter stage's `safe_sanitized_text` when present, and otherwise the
LLM answer (line 149). -/
theorem final_text_fallback {μ ε : Type} (emptyMap : μ) (st : AppState)
    (bk : Backend μ ε) (f : FilterResp μ) (fin : FinalResp)
    (hf : bk.output_filter = some f) (hfin : bk.final = some fin)
    (h1 : fin.final_rehydrated_text = none) (h2 : fin.result = none)
    (hreq : (handleSanitize emptyMap st bk).2.finalReq ≠ none) :
    (∀ t, f.safe_sanitized_text = some t →
      (handleSanitize emptyMap st bk).1.finalText = t) ∧
    (∀ l, f.safe_sanitized_text = none → bk.llm = some l →
      (handleSanitize emptyMap st bk).1.finalText =
        (l.answer <|> l.output).getD "") := by
  obtain ⟨s?, c?, l?, f?, fin?⟩ := bk
  simp only at hf hfin
  subst hf
  subst hfin
  unfold handleSanitize at *
  rcases hb : jsBlank st.text with _ | _ <;>
    rcases s? with _ | s <;>
    rcases c? with _ | c <;>
    rcases l? with _ | l <;>
    simp_all [RunTrace.empty, h1, h2]

/-- C10 witness: the concrete run whose final response carries no text
fields displays the filter stage's safe text. -/
theorem final_text_fallback_witness :
    (handleSanitize "E" stW bkFinalPlain).1.finalText = "F" :=
  (final_text_fallback "E" stW bkFinalPlain _ _ rfl rfl rfl rfl (by decide)).1
    "F" rfl
